import Mathlib

/-!
Shallow embedding of the proximity-search core of the EV-charger-locator
repository (files `app.py`, `ev_charger_locator.py`, `kepco_api_app.py`)
and proofs about it.

Numbers are modelled as real numbers; Python/pandas floats become `ℝ`.
Dataframes become lists of records; pandas column operations become list
operations on those records.
-/

noncomputable section

/-- Conversion from degrees to radians, the embedding of `np.radians`. -/
def radians (d : ℝ) : ℝ := d * Real.pi / 180

/-- Embedding of `haversine_np(lon1, lat1, lon2, lat2)` from `app.py`
lines 35–40 and `ev_charger_locator.py` lines 14–25 (both files define the
identical function): `R = 6371`; all four arguments converted with
`np.radians`; `dlon = lon2 - lon1`, `dlat = lat2 - lat1`;
`a = sin(dlat/2)**2 + cos(lat1)*cos(lat2)*sin(dlon/2)**2`;
result `2 * R * arcsin(sqrt(a))`.  The code passes `a` to `np.sqrt`
directly, with no clamping of any kind. -/
def haversine_np (lon1 lat1 lon2 lat2 : ℝ) : ℝ :=
  let R : ℝ := 6371
  let rlon1 := radians lon1
  let rlat1 := radians lat1
  let rlon2 := radians lon2
  let rlat2 := radians lat2
  let dlon := rlon2 - rlon1
  let dlat := rlat2 - rlat1
  let a := Real.sin (dlat / 2) ^ 2 +
    Real.cos rlat1 * Real.cos rlat2 * Real.sin (dlon / 2) ^ 2
  2 * R * Real.arcsin (Real.sqrt a)

/-- The haversine formula exactly as the specification words it
(spec §4.2 step 1): Earth radius 6371 km, convert all four coordinates
from degrees to radians, `dlat = lat2 - lat1`, `dlon = lon2 - lon1`,
`a = sin²(dlat/2) + cos(lat1)·cos(lat2)·sin²(dlon/2)`, and return
`2·R·asin(sqrt(a))`.  Written from the spec's words, to be compared with
`haversine_np`, which is written from the source. -/
def haversineFormulaSpec (lat1 lon1 lat2 lon2 : ℝ) : ℝ :=
  let rlat1 := lat1 * Real.pi / 180
  let rlon1 := lon1 * Real.pi / 180
  let rlat2 := lat2 * Real.pi / 180
  let rlon2 := lon2 * Real.pi / 180
  let dlat := rlat2 - rlat1
  let dlon := rlon2 - rlon1
  let a := Real.sin (dlat / 2) ^ 2 +
    Real.cos rlat1 * Real.cos rlat2 * Real.sin (dlon / 2) ^ 2
  2 * 6371 * Real.arcsin (Real.sqrt a)

/-- One row of the spreadsheet-backed dataframe of `app.py` after
`load_data`'s column selection and renaming (columns 충전소명, 주소, 위도,
경도, 충전기타입, 운영기관, 이용가능여부, 장소유형, 충전속도).  The five
categorical columns may hold nulls (`load_data` drops nulls only in the
two coordinate columns), hence `Option String`. -/
structure StationRecord where
  name : String
  addr : String
  lat : ℝ
  lon : ℝ
  connector : Option String
  operator : Option String
  access : Option String
  place : Option String
  speed : Option String

/-- A raw spreadsheet row before `load_data`'s `dropna`: the coordinate
cells may be null.  (The optional `위도경도` split column of the source
spreadsheet is resolved by the ingestion collaborator; rows are modelled
after that split.) -/
structure RawRow where
  name : String
  addr : String
  lat : Option ℝ
  lon : Option ℝ
  connector : Option String
  operator : Option String
  access : Option String
  place : Option String
  speed : Option String

/-- The per-row effect of `load_data` (`app.py` lines 16–32): a row whose
위도 or 경도 cell is null is dropped by
`dropna(subset=["위도", "경도"])`; any other row becomes a repository
record. -/
def stationOfRaw (row : RawRow) : Option StationRecord :=
  match row.lat, row.lon with
  | some la, some lo =>
      some ⟨row.name, row.addr, la, lo, row.connector, row.operator,
        row.access, row.place, row.speed⟩
  | _, _ => none

/-- Embedding of `load_data` (`app.py` lines 16–32): select/rename the
nine columns and drop every row with a null coordinate. -/
def load_data (rows : List RawRow) : List StationRecord :=
  rows.filterMap stationOfRaw

/-- One record of the API-backed dataframe of `ev_charger_locator.py`
(lines 76–86): the non-coordinate fields are strings with defaults
already applied by `findtext(..., "")` / `"정보없음"`, so they are never
null. -/
structure ApiRecord where
  name : String
  addr : String
  lat : ℝ
  lon : ℝ
  useTime : String
  operator : String
  cpTp : String
  cpStat : String

/-- One parsed `<item>` of the KEPCO API response, as consumed by
`fetch_ev_data_from_api` (lines 73–90).  `lat`/`longi` hold the parsed
float when the tag is present and non-empty, and `none` otherwise — the
code replaces a missing value by `0` via `float(item.findtext("lat") or 0)`.
Items whose coordinate text fails `float` parsing raise inside the
per-item `try` and are skipped before this list is formed. -/
structure ApiRawItem where
  csNm : String
  addr : String
  lat : Option ℝ
  longi : Option ℝ
  useTime : String
  busiNm : String
  cpTp : String
  cpStat : String

/-- The record built from one API item (`ev_charger_locator.py`
lines 76–86): missing coordinates default to `0`. -/
def apiRecordOfRaw (it : ApiRawItem) : ApiRecord :=
  ⟨it.csNm, it.addr, it.lat.getD 0, it.longi.getD 0,
    it.useTime, it.busiNm, it.cpTp, it.cpStat⟩

/-- Embedding of the dataframe construction and coordinate filter of
`fetch_ev_data_from_api` (lines 92–94):
`df = df[(df['위도'] != 0) | (df['경도'] != 0)]` — a record is kept iff
its latitude and longitude are not both exactly zero. -/
def fetch_ev_data (items : List ApiRawItem) : List ApiRecord :=
  (items.map apiRecordOfRaw).filter
    (fun r => decide (r.lat ≠ 0) || decide (r.lon ≠ 0))

/-- A record annotated with the computed `거리_km` column. -/
structure Annotated (α : Type) where
  row : α
  dist : ℝ

/-- The distance annotation of the `app.py` search block (line 109):
`df["거리_km"] = haversine_np(df["경도"], df["위도"], lon, lat)` — the
station's longitude/latitude are the first point, the reference point the
second. -/
def annotateApp (lat lon : ℝ) (r : StationRecord) : Annotated StationRecord :=
  ⟨r, haversine_np r.lon r.lat lon lat⟩

/-- The distance annotation of the `ev_charger_locator.py` search block
(lines 212–216): `haversine_np(df['경도'], df['위도'], user_lng, user_lat)`. -/
def annotateApi (userLat userLng : ℝ) (r : ApiRecord) : Annotated ApiRecord :=
  ⟨r, haversine_np r.lon r.lat userLng userLat⟩

/-- Embedding of `Series.isin(values)` as used in the `app.py` search
block (lines 111–115): the accepted values are the sidebar selections,
always a collection of non-null strings, so a null cell matches nothing. -/
def isin (v : Option String) (acc : List String) : Bool :=
  match v with
  | some s => acc.contains s
  | none => false

/-- Embedding of `df_raw[col].dropna().unique()`: the distinct non-null
values of a column.  (`unique` returns values in order of first
appearance; only membership in this list is consumed downstream, so the
deduplication order is irrelevant and `dedup` is used.) -/
def dropna_unique (col : List (Option String)) : List String :=
  (col.filterMap id).dedup

/-- The sidebar select-all expansion of `app.py` (lines 59–77): when the
sentinel "전체" is among the selected values, the selection is replaced by
the full distinct non-null value list of the corresponding `df_raw`
column. -/
def effectiveSel (sel : List String) (col : List (Option String)) : List String :=
  if "전체" ∈ sel then dropna_unique col else sel

/-- The categorical part of the `app.py` search mask (lines 111–115), with
the sidebar expansion applied to each selection: the five `isin`
conjuncts in source order (운영기관, 장소유형, 이용가능여부, 충전기타입,
충전속도).  The expansion columns are read from `df_raw`, the repository
the search runs on. -/
def categoricalMask (repo : List StationRecord)
    (selC selO selP selA selS : List String) (r : StationRecord) : Bool :=
  isin r.operator (effectiveSel selO (repo.map StationRecord.operator)) &&
  isin r.place (effectiveSel selP (repo.map StationRecord.place)) &&
  isin r.access (effectiveSel selA (repo.map StationRecord.access)) &&
  isin r.connector (effectiveSel selC (repo.map StationRecord.connector)) &&
  isin r.speed (effectiveSel selS (repo.map StationRecord.speed))

/-- The accepted-value set for one categorical field, as the claim words
it: under the "select all" sentinel it is the full distinct non-null value
set of the repository column, otherwise the selection itself.  Written
from the spec's words, to be compared with `effectiveSel`/`isin`. -/
def specAccepted (sel : List String) (col : List (Option String)) : Set String :=
  if "전체" ∈ sel then {s | some s ∈ col} else {s | s ∈ sel}

/-- One field passes, as the claim words it: the record's value for the
field is present and is a member of the accepted set (so a missing/null
value is excluded whenever null is not in the accepted set — and the
accepted sets here contain only strings). -/
def specFieldPasses (v : Option String) (acc : Set String) : Prop :=
  ∃ s, v = some s ∧ s ∈ acc

/-- Embedding of `sort_values("거리_km")` / `sort_values('거리_km')`:
an ascending sort on the `거리_km` column, modelled as insertion sort.
pandas is called with its default `kind='quicksort'`, which gives no
guarantee about the relative order of rows with equal keys, so no theorem
in this file relies on the tie order this particular model produces. -/
def insertByDist {α : Type} (a : Annotated α) :
    List (Annotated α) → List (Annotated α)
  | [] => [a]
  | b :: l => if b.dist ≤ a.dist then b :: insertByDist a l else a :: b :: l

/-- See `insertByDist`. -/
def sort_values {α : Type} : List (Annotated α) → List (Annotated α)
  | [] => []
  | a :: l => insertByDist a (sort_values l)

/-- The combined boolean mask of the `app.py` search block
(lines 110–116): the five categorical `isin` conjuncts followed by the
radius conjunct `거리_km <= radius_km`, evaluated on an annotated row. -/
def searchMask (repo : List StationRecord)
    (selC selO selP selA selS : List String) (radius : ℝ)
    (ann : Annotated StationRecord) : Bool :=
  categoricalMask repo selC selO selP selA selS ann.row &&
    decide (ann.dist ≤ radius)

/-- The `app.py` search pipeline (lines 108–117): copy `df_raw`, annotate
every row with `거리_km`, keep the rows passing `searchMask`, and sort
ascending by `거리_km`. -/
def searchResults (repo : List StationRecord)
    (selC selO selP selA selS : List String) (lat lon radius : ℝ) :
    List (Annotated StationRecord) :=
  sort_values (((repo.map (annotateApp lat lon))).filter
    (searchMask repo selC selO selP selA selS radius))

/-- The `ev_charger_locator.py` search pipeline (lines 208–219): copy
`df`, annotate every row with `거리_km`, keep the rows with
`거리_km <= radius` — no categorical condition appears — and sort
ascending by `거리_km`. -/
def nearbySearch (repo : List ApiRecord) (userLat userLng radius : ℝ) :
    List (Annotated ApiRecord) :=
  sort_values ((repo.map (annotateApi userLat userLng)).filter
    (fun ann => decide (ann.dist ≤ radius)))

/-- The outcome of one click of the `app.py` search button
(lines 107–125), embedded in an error channel so that the error behaviour
the spec claims is statable: the block performs no validation of `lat`,
`lon` or `radius_km` and contains no `raise`, so it always returns its
result normally. -/
def searchOutcome (repo : List StationRecord)
    (selC selO selP selA selS : List String) (lat lon radius : ℝ) :
    Except String (List (Annotated StationRecord)) :=
  Except.ok (searchResults repo selC selO selP selA selS lat lon radius)

/-- The `st.session_state` fields that the `app.py` search interacts
with. -/
structure SessionState where
  dfRaw : List StationRecord
  searched : Bool
  results : List (Annotated StationRecord)
  centerLat : ℝ
  centerLon : ℝ
  radius : ℝ

/-- One click of the `app.py` search button (lines 107–125) as a state
transformer: `df = df_raw.copy()` is annotated, filtered and sorted, and
`st.session_state.update(searched=True, results=df, center_lat=lat,
center_lon=lon, radius=radius_km)` stores the outcome; `df_raw` itself is
never written. -/
def searchClick (s : SessionState) (selC selO selP selA selS : List String)
    (lat lon radius : ℝ) : SessionState :=
  { s with
    searched := true
    results := searchResults s.dfRaw selC selO selP selA selS lat lon radius
    centerLat := lat
    centerLon := lon
    radius := radius }

/-- A concrete spreadsheet-sourced station used in witnesses. -/
def stationA : StationRecord :=
  ⟨"성수충전소", "서울 성수동", 37, 127, some "DC콤보", some "환경부",
    some "이용가능", some "공공시설", some "급속"⟩

/-- A concrete API item used in witnesses and counterexamples. -/
def itemA : ApiRawItem :=
  ⟨"A충전소", "서울 B로 1", some 37, some 127, "24시간", "한국전력", "01", "1"⟩

/-- The repository record `itemA` ingests to. -/
def recA : ApiRecord := apiRecordOfRaw itemA

/-- A concrete raw spreadsheet row with both coordinates present. -/
def rawGood : RawRow :=
  ⟨"G충전소", "서울 G로 2", some 37.5, some 127.0, none, some "한전",
    none, none, none⟩

/-- A concrete session state used in witnesses. -/
def s0 : SessionState := ⟨[stationA], false, [], 37.5665, 126.978, 1⟩

/-- A second session state sharing `s0`'s repository but differing in
every other field. -/
def s1 : SessionState := ⟨[stationA], true, [], 0, 0, 5⟩

theorem insertByDist_perm {α : Type} (a : Annotated α) (l : List (Annotated α)) :
    (insertByDist a l).Perm (a :: l) := by
  induction l with
  | nil => simp [insertByDist]
  | cons b t ih =>
    by_cases h : b.dist ≤ a.dist
    · simp only [insertByDist, if_pos h]
      exact (ih.cons b).trans (List.Perm.swap a b t)
    · simp [insertByDist, if_neg h]

theorem sort_values_perm {α : Type} (l : List (Annotated α)) :
    (sort_values l).Perm l := by
  induction l with
  | nil => simp [sort_values]
  | cons a t ih => exact (insertByDist_perm a (sort_values t)).trans (ih.cons a)

theorem mem_sort_values {α : Type} {x : Annotated α} {l : List (Annotated α)} :
    x ∈ sort_values l ↔ x ∈ l :=
  (sort_values_perm l).mem_iff

theorem insertByDist_pairwise {α : Type} (a : Annotated α)
    (l : List (Annotated α))
    (h : l.Pairwise (fun x y => x.dist ≤ y.dist)) :
    (insertByDist a l).Pairwise (fun x y => x.dist ≤ y.dist) := by
  induction l with
  | nil => simp [insertByDist]
  | cons b t ih =>
    rcases List.pairwise_cons.mp h with ⟨hb, ht⟩
    by_cases hba : b.dist ≤ a.dist
    · simp only [insertByDist, if_pos hba]
      refine List.pairwise_cons.mpr ⟨?_, ih ht⟩
      intro x hx
      rcases List.mem_cons.mp ((insertByDist_perm a t).mem_iff.mp hx) with rfl | hxt
      · exact hba
      · exact hb x hxt
    · simp only [insertByDist, if_neg hba]
      refine List.pairwise_cons.mpr ⟨?_, h⟩
      intro x hx
      rcases List.mem_cons.mp hx with rfl | hxt
      · exact le_of_not_le hba
      · exact le_trans (le_of_not_le hba) (hb x hxt)

/-- The sort model is ascending by the `거리_km` key, which is all the
pandas default `kind='quicksort'` guarantees. -/
theorem sort_values_pairwise {α : Type} (l : List (Annotated α)) :
    (sort_values l).Pairwise (fun x y => x.dist ≤ y.dist) := by
  induction l with
  | nil => simp [sort_values]
  | cons a t ih => exact insertByDist_pairwise a _ ih

/-- In real (exact) arithmetic the argument the haversine computation
passes to `sqrt` always lies in `[0, 1]`, for arbitrary (even
out-of-range) coordinates: it equals `(1 - K)/2` where
`K = cos r1 · cos r2 · cos d + sin r1 · sin r2` is the inner product of
two unit vectors.  Only floating-point rounding could push it outside. -/
theorem haversine_sqrt_arg_bounds (r1 r2 d : ℝ) :
    0 ≤ Real.sin ((r2 - r1) / 2) ^ 2 +
        Real.cos r1 * Real.cos r2 * Real.sin (d / 2) ^ 2 ∧
      Real.sin ((r2 - r1) / 2) ^ 2 +
        Real.cos r1 * Real.cos r2 * Real.sin (d / 2) ^ 2 ≤ 1 := by
  have hs : Real.sin ((r2 - r1) / 2) ^ 2 = 1 / 2 - Real.cos (r2 - r1) / 2 := by
    have h := Real.sin_sq_eq_half_sub ((r2 - r1) / 2)
    rwa [show 2 * ((r2 - r1) / 2) = r2 - r1 by ring] at h
  have hd : Real.sin (d / 2) ^ 2 = 1 / 2 - Real.cos d / 2 := by
    have h := Real.sin_sq_eq_half_sub (d / 2)
    rwa [show 2 * (d / 2) = d by ring] at h
  have hc : Real.cos (r2 - r1) =
      Real.cos r2 * Real.cos r1 + Real.sin r2 * Real.sin r1 := Real.cos_sub r2 r1
  have hcd1 : (0 : ℝ) ≤ 1 - Real.cos d := by linarith [Real.cos_le_one d]
  have hcd2 : (0 : ℝ) ≤ 1 + Real.cos d := by linarith [Real.neg_one_le_cos d]
  have h1 := mul_nonneg hcd1 (sq_nonneg (Real.cos r1 + Real.cos r2))
  have h2 := mul_nonneg hcd2 (sq_nonneg (Real.cos r1 - Real.cos r2))
  have h3 := mul_nonneg hcd1 (sq_nonneg (Real.cos r1 - Real.cos r2))
  have h4 := mul_nonneg hcd2 (sq_nonneg (Real.cos r1 + Real.cos r2))
  have p1 := Real.sin_sq_add_cos_sq r1
  have p2 := Real.sin_sq_add_cos_sq r2
  have hcc : Real.cos r1 * Real.cos r2 * Real.cos d ≤
      (Real.cos r1 ^ 2 + Real.cos r2 ^ 2) / 2 := by nlinarith [h1, h2]
  have hccl : -((Real.cos r1 ^ 2 + Real.cos r2 ^ 2) / 2) ≤
      Real.cos r1 * Real.cos r2 * Real.cos d := by nlinarith [h3, h4]
  have hss : Real.sin r1 * Real.sin r2 ≤
      (Real.sin r1 ^ 2 + Real.sin r2 ^ 2) / 2 := by
    nlinarith [sq_nonneg (Real.sin r1 - Real.sin r2)]
  have hssl : -((Real.sin r1 ^ 2 + Real.sin r2 ^ 2) / 2) ≤
      Real.sin r1 * Real.sin r2 := by
    nlinarith [sq_nonneg (Real.sin r1 + Real.sin r2)]
  rw [hs, hd, hc]
  ring_nf
  ring_nf at hcc hccl hss hssl
  constructor
  · linarith [hcc, hss, p1, p2]
  · linarith [hccl, hssl, p1, p2]

/-- The haversine value is always nonnegative: `arcsin` of a nonnegative
square root is nonnegative. -/
theorem haversine_np_nonneg (lon1 lat1 lon2 lat2 : ℝ) :
    0 ≤ haversine_np lon1 lat1 lon2 lat2 := by
  have h : ∀ x : ℝ, 0 ≤ 2 * (6371 : ℝ) * Real.arcsin (Real.sqrt x) := by
    intro x
    have hx := Real.arcsin_nonneg.mpr (Real.sqrt_nonneg x)
    nlinarith
  unfold haversine_np
  exact h _

/-- A point is at haversine distance zero from itself. -/
theorem haversine_np_self (lon lat : ℝ) : haversine_np lon lat lon lat = 0 := by
  simp [haversine_np]

/-- Membership characterization of the `app.py` search result. -/
theorem mem_searchResults {repo : List StationRecord}
    {selC selO selP selA selS : List String} {lat lon radius : ℝ}
    {ann : Annotated StationRecord} :
    ann ∈ searchResults repo selC selO selP selA selS lat lon radius ↔
      ∃ r ∈ repo, ann = annotateApp lat lon r ∧
        categoricalMask repo selC selO selP selA selS r = true ∧
        ann.dist ≤ radius := by
  unfold searchResults
  rw [mem_sort_values, List.mem_filter, List.mem_map]
  constructor
  · rintro ⟨⟨r, hr, rfl⟩, hm⟩
    simp only [searchMask, Bool.and_eq_true, decide_eq_true_eq] at hm
    exact ⟨r, hr, rfl, hm.1, hm.2⟩
  · rintro ⟨r, hr, rfl, hmask, hdist⟩
    refine ⟨⟨r, hr, rfl⟩, ?_⟩
    simp only [searchMask, Bool.and_eq_true, decide_eq_true_eq]
    exact ⟨hmask, hdist⟩

/-- Membership characterization of the `ev_charger_locator.py` search
result: only the radius condition appears. -/
theorem mem_nearbySearch {repo : List ApiRecord} {ulat ulng radius : ℝ}
    {ann : Annotated ApiRecord} :
    ann ∈ nearbySearch repo ulat ulng radius ↔
      ∃ r ∈ repo, ann = annotateApi ulat ulng r ∧ ann.dist ≤ radius := by
  unfold nearbySearch
  rw [mem_sort_values, List.mem_filter, List.mem_map]
  constructor
  · rintro ⟨⟨r, hr, rfl⟩, hm⟩
    exact ⟨r, hr, rfl, by simpa using hm⟩
  · rintro ⟨r, hr, rfl, hdist⟩
    exact ⟨⟨r, hr, rfl⟩, by simpa using hdist⟩

/-- One categorical conjunct of the search mask agrees with the claim's
characterization: the (possibly expanded) accepted set is consulted by
membership, and a null value passes no accepted set. -/
theorem isin_effectiveSel_iff (v : Option String) (sel : List String)
    (col : List (Option String)) :
    isin v (effectiveSel sel col) = true ↔
      specFieldPasses v (specAccepted sel col) := by
  cases v with
  | none => simp [isin, specFieldPasses]
  | some s =>
    by_cases h : "전체" ∈ sel <;>
      simp [isin, effectiveSel, specFieldPasses, specAccepted, dropna_unique,
        h, List.mem_filterMap]

/-- C3: a record passes the categorical filters iff, for each of the five
constrained fields, its value is a member of the accepted set, where the
"전체" (select all) sentinel expands the accepted set to the full distinct
non-null value set of the repository column; a record whose value is
missing/null is excluded, null never being in the accepted set. -/
theorem categorical_filter_characterization :
    ∀ (repo : List StationRecord) (selC selO selP selA selS : List String)
      (r : StationRecord),
      categoricalMask repo selC selO selP selA selS r = true ↔
        (specFieldPasses r.connector
            (specAccepted selC (repo.map StationRecord.connector)) ∧
          specFieldPasses r.operator
            (specAccepted selO (repo.map StationRecord.operator)) ∧
          specFieldPasses r.place
            (specAccepted selP (repo.map StationRecord.place)) ∧
          specFieldPasses r.access
            (specAccepted selA (repo.map StationRecord.access)) ∧
          specFieldPasses r.speed
            (specAccepted selS (repo.map StationRecord.speed))) := by
  intro repo selC selO selP selA selS r
  simp only [categoricalMask, Bool.and_eq_true, isin_effectiveSel_iff]
  tauto

/-- Counterexample to C5: with a negative radius the search block does
not raise or return any error — it completes normally (here with an empty
result), silently: the code contains no parameter validation at all. -/
theorem negative_radius_not_an_error :
    ((-1 : ℝ) < 0) ∧
      searchOutcome [] ["전체"] ["전체"] ["전체"] ["전체"] ["전체"]
        37.5665 126.978 (-1) = Except.ok [] :=
  ⟨by norm_num, rfl⟩

/-- C5 as amended: the query operation never raises — neither for a
negative radius nor for any other input: it performs no validation, and a
negative radius is silently turned into an empty result (every computed
distance being nonnegative). -/
theorem search_never_errors :
    ∀ (repo : List StationRecord) (selC selO selP selA selS : List String)
      (lat lon radius : ℝ),
      (∃ res, searchOutcome repo selC selO selP selA selS lat lon radius =
        Except.ok res) ∧
      (radius < 0 →
        searchOutcome repo selC selO selP selA selS lat lon radius =
          Except.ok []) := by
  intro repo selC selO selP selA selS lat lon radius
  refine ⟨⟨_, rfl⟩, fun hneg => ?_⟩
  unfold searchOutcome
  have hfil : ((repo.map (annotateApp lat lon)).filter
      (searchMask repo selC selO selP selA selS radius)) = [] := by
    rw [List.filter_eq_nil_iff]
    intro ann hann
    rcases List.mem_map.mp hann with ⟨r, _, rfl⟩
    simp only [searchMask, Bool.and_eq_true, decide_eq_true_eq, not_and]
    intro _
    have h0 := haversine_np_nonneg r.lon r.lat lon lat
    simp only [annotateApp]
    intro hle
    linarith
  unfold searchResults
  rw [hfil]
  rfl

/-- Witness for `search_never_errors` at a concrete input. -/
theorem search_never_errors_witness :
    ((-2 : ℝ) < 0) ∧
      searchOutcome [stationA] ["전체"] ["전체"] ["전체"] ["전체"] ["전체"]
        37 127 (-2) = Except.ok [] :=
  ⟨by norm_num,
    (search_never_errors [stationA] ["전체"] ["전체"] ["전체"] ["전체"] ["전체"]
      37 127 (-2)).2 (by norm_num)⟩

/-- C6: every record that survives ingestion has both coordinates
present: a spreadsheet row with a null 위도 or 경도 is dropped by
`load_data`, and on the API path a record is kept iff its latitude and
longitude are not both exactly zero (zero being the sentinel substituted
for a missing coordinate). -/
theorem ingestion_coordinate_invariant :
    (∀ (rows : List RawRow) (r : StationRecord), r ∈ load_data rows →
      ∃ raw ∈ rows, raw.lat = some r.lat ∧ raw.lon = some r.lon)
    ∧ (∀ raw : RawRow, (raw.lat = none ∨ raw.lon = none) →
        stationOfRaw raw = none)
    ∧ (∀ (items : List ApiRawItem) (r : ApiRecord),
        r ∈ fetch_ev_data items ↔
          r ∈ items.map apiRecordOfRaw ∧ (r.lat ≠ 0 ∨ r.lon ≠ 0)) := by
  refine ⟨?_, ?_, ?_⟩
  · intro rows r hr
    rcases List.mem_filterMap.mp hr with ⟨raw, hraw, hsome⟩
    refine ⟨raw, hraw, ?_⟩
    unfold stationOfRaw at hsome
    split at hsome
    · next la lo heq1 heq2 =>
        cases hsome
        exact ⟨heq1, heq2⟩
    · exact absurd hsome (by simp)
  · intro raw hnull
    unfold stationOfRaw
    split
    · next la lo heq1 heq2 => rw [heq1, heq2] at hnull; simp at hnull
    · rfl
  · intro items r
    unfold fetch_ev_data
    rw [List.mem_filter]
    simp [Bool.or_eq_true, decide_eq_true_eq]

/-- Witness for `ingestion_coordinate_invariant` at concrete inputs. -/
theorem ingestion_coordinate_invariant_witness :
    (∃ raw ∈ [rawGood], raw.lat = some (37.5 : ℝ) ∧ raw.lon = some (127.0 : ℝ))
    ∧ (stationOfRaw { rawGood with lat := none } = none)
    ∧ (recA ∈ fetch_ev_data [itemA] ∧ ((recA.lat ≠ 0) ∨ (recA.lon ≠ 0))) := by
  refine ⟨?_, ?_, ?_⟩
  · exact ingestion_coordinate_invariant.1 [rawGood]
      ⟨"G충전소", "서울 G로 2", 37.5, 127.0, none, some "한전", none, none, none⟩
      (by simp [load_data, rawGood, stationOfRaw])
  · exact ingestion_coordinate_invariant.2.1 _ (Or.inl rfl)
  · refine And.intro (((ingestion_coordinate_invariant.2.2 [itemA] recA)).mpr ?_) ?_
    · constructor
      · simp [recA]
      · left
        norm_num [recA, apiRecordOfRaw, itemA]
    · left
      norm_num [recA, apiRecordOfRaw, itemA]

/-- C7: the radius filter of both search pipelines keeps exactly the
records whose computed distance is `≤ radius` — the boundary is
inclusive, a record at distance exactly `radius` satisfies the kept
condition. -/
theorem radius_filter_inclusive_boundary :
    (∀ (repo : List StationRecord) (selC selO selP selA selS : List String)
      (lat lon radius : ℝ) (ann : Annotated StationRecord),
      ann ∈ searchResults repo selC selO selP selA selS lat lon radius ↔
        ∃ r ∈ repo, ann = annotateApp lat lon r ∧
          categoricalMask repo selC selO selP selA selS r = true ∧
          ann.dist ≤ radius)
    ∧ (∀ (repo : List ApiRecord) (ulat ulng radius : ℝ)
      (ann : Annotated ApiRecord),
      ann ∈ nearbySearch repo ulat ulng radius ↔
        ∃ r ∈ repo, ann = annotateApi ulat ulng r ∧ ann.dist ≤ radius) :=
  ⟨fun _ _ _ _ _ _ _ _ _ _ => mem_searchResults,
    fun _ _ _ _ _ => mem_nearbySearch⟩

/-- C1: for every station record and reference point, both query engines
assign as `거리_km` exactly the haversine distance of the spec's formula
(Earth radius 6371 km, degree→radian conversion,
`a = sin²(dlat/2) + cos(lat1)·cos(lat2)·sin²(dlon/2)`, result
`2·R·asin(sqrt(a))`), and the shared `haversine_np` is that formula. -/
theorem distance_is_spec_haversine :
    (∀ lon1 lat1 lon2 lat2 : ℝ,
      haversine_np lon1 lat1 lon2 lat2 = haversineFormulaSpec lat1 lon1 lat2 lon2)
    ∧ (∀ (lat lon : ℝ) (r : StationRecord),
      (annotateApp lat lon r).dist = haversineFormulaSpec r.lat r.lon lat lon)
    ∧ (∀ (ulat ulng : ℝ) (r : ApiRecord),
      (annotateApi ulat ulng r).dist = haversineFormulaSpec r.lat r.lon ulat ulng) := by
  refine ⟨fun lon1 lat1 lon2 lat2 => ?_, fun lat lon r => ?_, fun ulat ulng r => ?_⟩ <;>
    simp [haversine_np, haversineFormulaSpec, annotateApp, annotateApi, radians]

/-- C8: a search click is a pure function of the repository snapshot and
the parameters: it leaves `df_raw` untouched, repeating it with the same
parameters reproduces the same results, the results do not depend on any
other session state, and every result row is an annotated copy of an
unchanged repository record. -/
theorem query_pure_and_nonmutating :
    ∀ (s : SessionState) (selC selO selP selA selS : List String)
      (lat lon radius : ℝ),
      (searchClick s selC selO selP selA selS lat lon radius).dfRaw = s.dfRaw
      ∧ (searchClick (searchClick s selC selO selP selA selS lat lon radius)
          selC selO selP selA selS lat lon radius).results =
        (searchClick s selC selO selP selA selS lat lon radius).results
      ∧ (∀ s' : SessionState, s'.dfRaw = s.dfRaw →
          (searchClick s' selC selO selP selA selS lat lon radius).results =
            (searchClick s selC selO selP selA selS lat lon radius).results)
      ∧ (∀ ann ∈ (searchClick s selC selO selP selA selS lat lon radius).results,
          ann.row ∈ s.dfRaw) := by
  intro s selC selO selP selA selS lat lon radius
  refine ⟨rfl, rfl, fun s' h => ?_, fun ann hann => ?_⟩
  · show searchResults s'.dfRaw selC selO selP selA selS lat lon radius =
        searchResults s.dfRaw selC selO selP selA selS lat lon radius
    rw [h]
  · simp only [searchClick] at hann
    rcases mem_searchResults.mp hann with ⟨r, hr, rfl, _, _⟩
    exact hr

/-- Witness for `query_pure_and_nonmutating` at a concrete state. -/
theorem query_pure_and_nonmutating_witness :
    (searchClick s0 ["전체"] ["전체"] ["전체"] ["전체"] ["전체"] 37 127 1).dfRaw =
        s0.dfRaw
    ∧ (searchClick s1 ["전체"] ["전체"] ["전체"] ["전체"] ["전체"] 37 127 1).results =
        (searchClick s0 ["전체"] ["전체"] ["전체"] ["전체"] ["전체"] 37 127 1).results
    ∧ (annotateApp 37 127 stationA).row ∈ s0.dfRaw := by
  have h := query_pure_and_nonmutating s0 ["전체"] ["전체"] ["전체"] ["전체"] ["전체"]
    37 127 1
  refine ⟨h.1, h.2.2.1 s1 rfl, h.2.2.2 _ ?_⟩
  show annotateApp 37 127 stationA ∈
    searchResults s0.dfRaw ["전체"] ["전체"] ["전체"] ["전체"] ["전체"] 37 127 1
  refine mem_searchResults.mpr ⟨stationA, by simp [s0], rfl, ?_, ?_⟩
  · rfl
  · show haversine_np stationA.lon stationA.lat 127 37 ≤ 1
    have h0 : haversine_np stationA.lon stationA.lat 127 37 = 0 :=
      haversine_np_self 127 37
    rw [h0]
    norm_num

theorem pipeline_rows_subperm {α : Type} (repo : List α) (f : α → Annotated α)
    (hf : ∀ r, (f r).row = r) (p : Annotated α → Bool) :
    List.Subperm ((sort_values ((repo.map f).filter p)).map Annotated.row) repo := by
  refine ⟨((repo.map f).filter p).map Annotated.row,
    ((sort_values_perm _).map _).symm, ?_⟩
  have h2 : (((repo.map f).filter p).map Annotated.row).Sublist
      ((repo.map f).map Annotated.row) := ((repo.map f).filter_sublist).map _
  have h3 : (repo.map f).map Annotated.row = repo := by
    rw [List.map_map]
    have hcomp : Annotated.row ∘ f = id := funext hf
    rw [hcomp, List.map_id]
  rwa [h3] at h2

/-- C9 as amended: a query duplicates nothing — as a multiset, the
records underlying a query result are contained in the repository, so
each repository record contributes at most one result row per occurrence;
distinct repository records that share name and address may however each
appear. -/
theorem result_rows_within_repository :
    (∀ (repo : List StationRecord) (selC selO selP selA selS : List String)
      (lat lon radius : ℝ),
      (↑((searchResults repo selC selO selP selA selS lat lon radius).map
          Annotated.row) : Multiset StationRecord) ≤ ↑repo)
    ∧ (∀ (repo : List ApiRecord) (ulat ulng radius : ℝ),
      (↑((nearbySearch repo ulat ulng radius).map Annotated.row) :
          Multiset ApiRecord) ≤ ↑repo) := by
  constructor
  · intro repo selC selO selP selA selS lat lon radius
    rw [Multiset.coe_le]
    exact pipeline_rows_subperm repo (annotateApp lat lon) (fun _ => rfl) _
  · intro repo ulat ulng radius
    rw [Multiset.coe_le]
    exact pipeline_rows_subperm repo (annotateApi ulat ulng) (fun _ => rfl) _

/-- Counterexample to C9: two API items with the same name and address
(two chargers of one station) both survive ingestion, and a query around
their location returns the name+address pair twice. -/
theorem duplicate_name_addr_in_result :
    (((nearbySearch (fetch_ev_data [itemA, itemA]) 37 127 1).map
        (fun a => (a.row.name, a.row.addr))).count ("A충전소", "서울 B로 1")) = 2 := by
  have hlat : (apiRecordOfRaw itemA).lat ≠ 0 := by norm_num [apiRecordOfRaw, itemA]
  have hf : fetch_ev_data [itemA, itemA] = [recA, recA] := by
    simp [fetch_ev_data, List.filter, recA, hlat]
  have hd : haversine_np 127 37 127 37 = 0 := haversine_np_self 127 37
  have hq : (0 : ℝ) ≤ 1 := by norm_num
  rw [hf]
  simp [nearbySearch, annotateApi, hd, hq, sort_values, insertByDist,
    List.filter, List.count_cons, recA, apiRecordOfRaw, itemA]

/-- C10: the API-sourced query applies only the radius filter — every
repository record whose computed distance is within the radius appears in
the result, whatever its categorical field values are. -/
theorem api_search_radius_only :
    ∀ (repo : List ApiRecord) (ulat ulng radius : ℝ) (r : ApiRecord),
      r ∈ repo → haversine_np r.lon r.lat ulng ulat ≤ radius →
      annotateApi ulat ulng r ∈ nearbySearch repo ulat ulng radius := by
  intro repo ulat ulng radius r hr hdist
  exact mem_nearbySearch.mpr ⟨r, hr, rfl, hdist⟩

/-- Witness for `api_search_radius_only` at a concrete record. -/
theorem api_search_radius_only_witness :
    annotateApi 37 127 recA ∈ nearbySearch [recA] 37 127 1 := by
  apply api_search_radius_only [recA] 37 127 1 recA (by simp)
  have h0 : haversine_np recA.lon recA.lat 127 37 = 0 := haversine_np_self 127 37
  rw [h0]
  norm_num

end
